import Mathlib

/-!
Shallow embedding of `app/deepclaude/deepclaude.py` (class `DeepClaude`).

The source orchestrates two asynchronous token producers:
* a reasoning producer (`self.deepseek_client.stream_chat`) whose stream of
  `(content_type, content)` pairs is consumed by the inner coroutine
  `process_deepseek`;
* an answer producer (`self.claude_client.stream_chat`) consumed by the inner
  coroutine `process_claude`.

Modelling decisions, each justified against the source:

* A producer stream is a finite list of `(content_type, content)` string pairs
  plus a flag `raises` meaning the async iterator raises an exception after
  yielding exactly the listed items.  An exception raised after `k` of `n`
  items is the run whose `items` are the first `k` items with `raises = true`.

* Queue items on `output_queue` are either a data frame or the `None`
  completion sentinel; we model them as `Option StreamEvent`.  On the wire a
  data frame is the UTF-8 bytes of `"data: " + json.dumps(event) + "\n\n"` and
  the terminal marker is the literal bytes `data: [DONE]\n\n`; since
  `json.dumps` of a dict always starts with a brace, a data frame is never
  equal to the terminal marker, which the inductive `Frame` below reflects
  structurally.

* `asyncio` runs both coroutines cooperatively on one thread, and a `put` on
  an unbounded `asyncio.Queue` never suspends.  `process_deepseek` therefore
  enqueues all of its frames and its `None` sentinel before `process_claude`
  (which first suspends on `claude_queue.get()`) can enqueue anything, so the
  `output_queue` arrival order is: all deepseek items, then all claude items.
  `streamQueueTrace` below is exactly that arrival order.

* If `claude_queue` is never written, `process_claude` suspends forever on
  `get()` and contributes nothing to `output_queue`, not even its `None`
  sentinel; the fan-in loop then waits forever after consuming one sentinel.
  `fanIn` returns a `Bool` recording whether the loop terminated.
-/

/-- One entry of the Python `messages` list.  The source reads only
`message.get("role", "")` and appends dicts with `role`/`content` keys, so a
record with those two fields suffices; a dict lacking the `role` key behaves
as `role = ""`. -/
structure Message where
  role : String
  content : String
  deriving DecidableEq

/-- The `delta` object of a streamed chunk.  `reasoning_content = none` means
the key is absent (the claude-side frames have no `reasoning_content` key). -/
structure Delta where
  role : String
  reasoning_content : Option String
  content : String
  deriving DecidableEq

/-- One element of the `choices` array of a streamed chunk. -/
structure Choice where
  index : Nat
  delta : Delta
  deriving DecidableEq

/-- The JSON object serialized into a `data: ...` frame
(`chat_completions_with_stream`, response dicts at both `output_queue.put`
sites). -/
structure StreamEvent where
  id : String
  object : String
  created : Nat
  model : String
  choices : List Choice
  deriving DecidableEq

/-- One item yielded by the streaming generator: a data frame
(`"data: " + json.dumps(event) + "\n\n"`) or the terminal marker
(`data: [DONE]\n\n`).  The two are distinct byte strings since `json.dumps`
of a dict starts with a brace. -/
inductive Frame where
  | event : StreamEvent → Frame
  | done : Frame
  deriving DecidableEq

/-- One run of a producer's async stream: the pairs it yields, and whether the
iterator raises an exception after the last yielded item. -/
structure StreamRun where
  items : List (String × String)
  raises : Bool
  deriving DecidableEq

/-- `usage` object of the aggregated response. -/
structure UsageInfo where
  prompt_tokens : Int
  completion_tokens : Int
  total_tokens : Int
  deriving DecidableEq

/-- `message` object of the aggregated response. -/
structure RespMessage where
  role : String
  content : String
  reasoning_content : String
  deriving DecidableEq

/-- One element of `choices` in the aggregated response. -/
structure RespChoice where
  index : Nat
  message : RespMessage
  finish_reason : String
  deriving DecidableEq

/-- The aggregated (non-streaming) response dict of
`chat_completions_without_stream`. -/
structure Response where
  id : String
  object : String
  created : Nat
  model : String
  choices : List RespChoice
  usage : UsageInfo
  deriving DecidableEq

/-- The fixed fallback text substituted for missing reasoning
(`"获取推理内容失败"` in the source). -/
def fallbackText : String := "获取推理内容失败"

/-- The frame built by `process_deepseek` for one reasoning chunk `c`:
`delta` carries `role`, `reasoning_content = c` and `content = ""`. -/
def deepseekEvent (chat_id : String) (created_time : Nat)
    (deepseek_model c : String) : StreamEvent :=
  { id := chat_id
    object := "chat.completion.chunk"
    created := created_time
    model := deepseek_model
    choices := [{ index := 0
                  delta := { role := "assistant"
                             reasoning_content := some c
                             content := "" } }] }

/-- The frame built by `process_claude` for one answer chunk `c`: `delta`
carries only `role` and `content` (no `reasoning_content` key). -/
def claudeEvent (chat_id : String) (created_time : Nat)
    (claude_model c : String) : StreamEvent :=
  { id := chat_id
    object := "chat.completion.chunk"
    created := created_time
    model := claude_model
    choices := [{ index := 0
                  delta := { role := "assistant"
                             reasoning_content := none
                             content := c } }] }

/-- The content of the synthetic assistant message appended before calling the
answer producer (f-string in both `process_claude` and
`chat_completions_without_stream`). -/
def synthContent (reasoning : String) : String :=
  "Here\x27s my reasoning process:\n" ++ reasoning ++
    "\n\nBased on this reasoning, I will now provide my response:"

/-- The synthetic assistant message dict appended to the copied message
list. -/
def synthMessage (reasoning : String) : Message :=
  { role := "assistant", content := synthContent reasoning }

/-- The `async for` loop body of `process_deepseek`: appends each
`"reasoning"` chunk to the `reasoning_content` accumulator and emits a frame
for it; on the first `"content"` chunk it puts the joined accumulator on
`claude_queue` and breaks; other content types are skipped.  If the iterator
is exhausted and then raises, the `except` branch puts `""` on
`claude_queue`.  Returns (frames put on `output_queue`, strings put on
`claude_queue`). -/
def deepseekLoop (chat_id : String) (created_time : Nat)
    (deepseek_model : String) (raises : Bool) :
    List (String × String) → List String → List StreamEvent × List String
  | [], _ => ([], if raises then [""] else [])
  | (ctype, c) :: rest, acc =>
    if ctype = "reasoning" then
      let r := deepseekLoop chat_id created_time deepseek_model raises rest
        (acc ++ [c])
      (deepseekEvent chat_id created_time deepseek_model c :: r.1, r.2)
    else if ctype = "content" then
      ([], [String.join acc])
    else
      deepseekLoop chat_id created_time deepseek_model raises rest acc

/-- `process_deepseek`: runs the loop with an empty accumulator, then
(unconditionally, after the `try`/`except`) puts the `None` end marker on
`output_queue`.  Returns (items put on `output_queue`, strings put on
`claude_queue`). -/
def process_deepseek (chat_id : String) (created_time : Nat)
    (deepseek_model : String) (run : StreamRun) :
    List (Option StreamEvent) × List String :=
  let r := deepseekLoop chat_id created_time deepseek_model run.raises
    run.items []
  (r.1.map some ++ [none], r.2)

/-- The `async for` loop of `process_claude`: emits one frame per
`"answer"` chunk, skipping other content types.  An exception from the
iterator (`run.raises`) is caught by the surrounding `except` which only
logs, so the emitted frames do not depend on it. -/
def claudeLoop (chat_id : String) (created_time : Nat)
    (claude_model : String) : List (String × String) → List StreamEvent
  | [] => []
  | (ctype, c) :: rest =>
    if ctype = "answer" then
      claudeEvent chat_id created_time claude_model c ::
        claudeLoop chat_id created_time claude_model rest
    else
      claudeLoop chat_id created_time claude_model rest

/-- The message-list construction shared by both modes:
`claude_messages = messages.copy()`, append the synthetic assistant message,
then keep only messages whose role is not `"system"` (the list
comprehension). -/
def buildClaudeMessages (messages : List Message) (reasoning : String) :
    List Message :=
  (messages ++ [synthMessage reasoning]).filter
    (fun message => message.role != "system")

/-- The message list `process_claude` passes to the answer producer: the
reasoning read from `claude_queue` is first replaced by the fallback text if
it is falsy (the empty string), then the shared construction runs. -/
def streamClaudeMessages (messages : List Message) (reasoning : String) :
    List Message :=
  buildClaudeMessages messages
    (if reasoning = "" then fallbackText else reasoning)

/-- `process_claude`: awaits `claude_queue.get()`.  If nothing is ever put on
`claude_queue` the coroutine suspends forever and contributes nothing to
`output_queue` (the final `put(None)` is never reached) — the `[]` case.
Otherwise it reads the single value, builds the message list, streams the
answer producer (exceptions caught and logged), and finally puts `None`. -/
def process_claude (chat_id : String) (created_time : Nat)
    (claude_model : String) (messages : List Message)
    (claudeQueue : List String)
    (answerProducer : List Message → StreamRun) : List (Option StreamEvent) :=
  match claudeQueue with
  | [] => []
  | reasoning :: _ =>
    let run := answerProducer (streamClaudeMessages messages reasoning)
    (claudeLoop chat_id created_time claude_model run.items).map some ++
      [none]

/-- The arrival order of items on `output_queue`.  All of
`process_deepseek`'s puts (frames, then its `None`) precede all of
`process_claude`'s puts, because `process_claude` first suspends on
`claude_queue.get()`, which is only written at the very end of
`process_deepseek`'s try/except, and puts on an unbounded `asyncio.Queue`
never yield control. -/
def streamQueueTrace (chat_id : String) (created_time : Nat)
    (deepseek_model claude_model : String) (messages : List Message)
    (deepseekRun : StreamRun)
    (answerProducer : List Message → StreamRun) : List (Option StreamEvent) :=
  (process_deepseek chat_id created_time deepseek_model deepseekRun).1 ++
    process_claude chat_id created_time claude_model messages
      (process_deepseek chat_id created_time deepseek_model deepseekRun).2
      answerProducer

/-- The consumer loop of `chat_completions_with_stream`:
`while finished_tasks < 2`, get an item; `None` increments the counter,
anything else is yielded; after the loop, yield the terminal marker.  The
returned `Bool` is `true` iff the loop terminated (if the queue runs out of
items before two `None`s arrive, `await output_queue.get()` suspends
forever). -/
def fanIn : Nat → List (Option StreamEvent) → List Frame × Bool
  | finished, [] =>
    if 2 ≤ finished then ([Frame.done], true) else ([], false)
  | finished, none :: rest =>
    if 2 ≤ finished then ([Frame.done], true) else fanIn (finished + 1) rest
  | finished, some e :: rest =>
    if 2 ≤ finished then ([Frame.done], true)
    else
      (Frame.event e :: (fanIn finished rest).1, (fanIn finished rest).2)

/-- `chat_completions_with_stream`: spawns both coroutines and consumes
`output_queue` until two completion sentinels arrive, then yields the
terminal marker.  The producer runs are parameters (the transports are
external collaborators). -/
def chat_completions_with_stream (chat_id : String) (created_time : Nat)
    (deepseek_model claude_model : String) (messages : List Message)
    (deepseekRun : StreamRun)
    (answerProducer : List Message → StreamRun) : List Frame × Bool :=
  fanIn 0 (streamQueueTrace chat_id created_time deepseek_model claude_model
    messages deepseekRun answerProducer)

/-- Step 1 of `chat_completions_without_stream`: the reasoning collection
loop.  On a `"content"` chunk it breaks with the accumulator; if the iterator
raises, the `except` branch replaces the whole accumulator with the
single-element fallback list. -/
def aggLoop (raises : Bool) :
    List (String × String) → List String → List String
  | [], acc => if raises then [fallbackText] else acc
  | (ctype, c) :: rest, acc =>
    if ctype = "reasoning" then aggLoop raises rest (acc ++ [c])
    else if ctype = "content" then acc
    else aggLoop raises rest acc

/-- `reasoning = "".join(reasoning_content)` in
`chat_completions_without_stream`. -/
def aggReasoning (deepseekRun : StreamRun) : String :=
  String.join (aggLoop deepseekRun.raises deepseekRun.items [])

/-- The message list `chat_completions_without_stream` passes to the answer
producer.  Unlike the streaming path, there is no falsy-check here: an empty
`reasoning` string is embedded as-is. -/
def withoutStreamClaudeMessages (messages : List Message)
    (deepseekRun : StreamRun) : List Message :=
  buildClaudeMessages messages (aggReasoning deepseekRun)

/-- Step 3 of `chat_completions_without_stream`: `answer` starts empty and
each `"answer"` chunk is concatenated onto it. -/
def concatAnswer : List (String × String) → String
  | [] => ""
  | (ctype, c) :: rest =>
    if ctype = "answer" then c ++ concatAnswer rest else concatAnswer rest

/-- `chat_completions_without_stream`: collects reasoning, builds the message
list, runs the answer producer; if the answer producer raises, the `except`
branch re-raises (`raise e`), modelled as `none`; otherwise the OpenAI-format
response dict is returned. -/
def chat_completions_without_stream (chat_id : String) (created_time : Nat)
    (claude_model : String) (messages : List Message)
    (deepseekRun : StreamRun)
    (answerProducer : List Message → StreamRun) : Option Response :=
  if (answerProducer (withoutStreamClaudeMessages messages deepseekRun)).raises
  then none
  else some
    { id := chat_id
      object := "chat.completion"
      created := created_time
      model := claude_model
      choices := [{ index := 0
                    message := { role := "assistant"
                                 content := concatAnswer (answerProducer
                                   (withoutStreamClaudeMessages messages
                                     deepseekRun)).items
                                 reasoning_content := aggReasoning deepseekRun }
                    finish_reason := "stop" }]
      usage := { prompt_tokens := -1
                 completion_tokens := -1
                 total_tokens := -1 } }

/-- An answer producer whose stream raises after its items — used to state
failure-propagation properties.  It yields the same chunks as `ap` and then
raises. -/
def raisingProducer (ap : List Message → StreamRun) :
    List Message → StreamRun :=
  fun ms => { items := (ap ms).items, raises := true }

/-!
A small heap model of the Python list operations performed on the
caller-supplied `messages` list, to state the frame property (the source
mutates only a copy).  Addresses are indices into a heap of lists;
`messages.copy()` allocates a fresh address with the same contents,
`claude_messages.append(...)` mutates in place at an address, and the list
comprehension allocates a fresh filtered list.
-/

/-- Heap of Python list objects holding messages; an address is an index. -/
abbrev Heap := List (List Message)

/-- Dereference an address (out-of-range reads give `[]`; the theorems only
use valid addresses). -/
def heapGet (h : Heap) (a : Nat) : List Message := h.getD a []

/-- Allocate a fresh list object, returning the new heap and its address. -/
def heapAlloc (h : Heap) (v : List Message) : Heap × Nat :=
  (h ++ [v], h.length)

/-- The exact sequence of Python list operations both modes perform on the
message list at address `a`:
`claude_messages = messages.copy()` (fresh allocation),
`claude_messages.append({...})` (in-place mutation of the copy),
`claude_messages = [m for m in claude_messages if ...]` (fresh allocation,
rebinding).  Returns the final heap and the address bound to
`claude_messages`. -/
def buildClaudeMessagesOps (h : Heap) (a : Nat) (reasoning : String) :
    Heap × Nat :=
  let p1 := heapAlloc h (heapGet h a)
  let h2 := p1.1.set p1.2 (heapGet p1.1 p1.2 ++ [synthMessage reasoning])
  heapAlloc h2 ((heapGet h2 p1.2).filter
    (fun message => message.role != "system"))

/-! ## Helper lemmas -/

-- While fewer than two sentinels have been consumed, a block of data frames
-- is forwarded unchanged.
theorem fanIn_map_some (f : Nat) (hf : f < 2) (es : List StreamEvent)
    (rest : List (Option StreamEvent)) :
    fanIn f (es.map some ++ rest) =
      (es.map Frame.event ++ (fanIn f rest).1, (fanIn f rest).2) := by
  induction es with
  | nil => simp
  | cons e es ih =>
    simp only [List.map_cons, List.cons_append, fanIn,
      if_neg (Nat.not_le.mpr hf), List.append_eq, ih]

-- Consuming a sentinel increments the counter.
theorem fanIn_none_step (f : Nat) (hf : f < 2)
    (rest : List (Option StreamEvent)) :
    fanIn f (none :: rest) = fanIn (f + 1) rest := by
  simp [fanIn, if_neg (Nat.not_le.mpr hf)]

-- A trace of two data-frame blocks, each closed by a sentinel, is forwarded
-- fully and the loop terminates with the terminal marker.
theorem fanIn_two_blocks (A B : List StreamEvent) :
    fanIn 0 (A.map some ++ [none] ++ (B.map some ++ [none])) =
      (A.map Frame.event ++ (B.map Frame.event ++ [Frame.done]), true) := by
  rw [List.append_assoc, List.singleton_append,
    fanIn_map_some 0 (by omega), fanIn_none_step 0 (by omega),
    fanIn_map_some 1 (by omega), fanIn_none_step 1 (by omega)]
  simp [fanIn]

-- A trace with a single sentinel: frames are forwarded but the loop then
-- suspends forever; the terminal marker is never yielded.
theorem fanIn_one_block (A : List StreamEvent) :
    fanIn 0 (A.map some ++ [none]) = (A.map Frame.event, false) := by
  rw [fanIn_map_some 0 (by omega), fanIn_none_step 0 (by omega)]
  simp [fanIn]

-- Data frames are never the sentinel.
theorem count_none_map_some (L : List StreamEvent) :
    (L.map some).count (none : Option StreamEvent) = 0 := by
  induction L with
  | nil => rfl
  | cons e L ih => simp [List.count_cons, ih]

-- Data frames are never the terminal marker.
theorem count_done_map_event (L : List StreamEvent) :
    (L.map Frame.event).count Frame.done = 0 := by
  induction L with
  | nil => rfl
  | cons e L ih => simp [List.count_cons, ih]

-- The reasoning loop writes at most one value to the handoff queue.
theorem deepseekLoop_writes_le (chat_id : String) (created_time : Nat)
    (deepseek_model : String) (raises : Bool) :
    ∀ (items : List (String × String)) (acc : List String),
      (deepseekLoop chat_id created_time deepseek_model raises items
        acc).2.length ≤ 1 := by
  intro items
  induction items with
  | nil => intro acc; cases raises <;> simp [deepseekLoop]
  | cons p rest ih =>
    intro acc
    obtain ⟨ctype, c⟩ := p
    by_cases h1 : ctype = "reasoning"
    · simpa [deepseekLoop, h1] using ih (acc ++ [c])
    · by_cases h2 : ctype = "content"
      · simp [deepseekLoop, h1, h2]
      · simpa [deepseekLoop, h1, h2] using ih acc

-- If the stream raises, or yields a transition chunk, the loop writes
-- exactly one value to the handoff queue.
theorem deepseekLoop_writes_one (chat_id : String) (created_time : Nat)
    (deepseek_model : String) (raises : Bool) :
    ∀ (items : List (String × String)) (acc : List String),
      (raises = true ∨ ∃ x ∈ items, x.1 = "content") →
      ∃ s, (deepseekLoop chat_id created_time deepseek_model raises items
        acc).2 = [s] := by
  intro items
  induction items with
  | nil =>
    intro acc hc
    rcases hc with hr | ⟨x, hx, _⟩
    · subst hr; exact ⟨"", rfl⟩
    · exact absurd hx (List.not_mem_nil x)
  | cons p rest ih =>
    intro acc hc
    obtain ⟨ctype, c⟩ := p
    by_cases h1 : ctype = "reasoning"
    · have hc' : raises = true ∨ ∃ x ∈ rest, x.1 = "content" := by
        rcases hc with hr | ⟨x, hx, hx1⟩
        · exact Or.inl hr
        · rcases List.mem_cons.mp hx with hhead | htail
          · subst hhead; simp [h1] at hx1
          · exact Or.inr ⟨x, htail, hx1⟩
      simpa [deepseekLoop, h1] using ih (acc ++ [c]) hc'
    · by_cases h2 : ctype = "content"
      · exact ⟨String.join acc, by simp [deepseekLoop, h1, h2]⟩
      · have hc' : raises = true ∨ ∃ x ∈ rest, x.1 = "content" := by
          rcases hc with hr | ⟨x, hx, hx1⟩
          · exact Or.inl hr
          · rcases List.mem_cons.mp hx with hhead | htail
            · subst hhead; simp [h2] at hx1
            · exact Or.inr ⟨x, htail, hx1⟩
        simpa [deepseekLoop, h1, h2] using ih acc hc'

-- If the stream ends normally with no transition chunk, nothing is written
-- to the handoff queue.
theorem deepseekLoop_writes_nil (chat_id : String) (created_time : Nat)
    (deepseek_model : String) :
    ∀ (items : List (String × String)) (acc : List String),
      (∀ x ∈ items, x.1 ≠ "content") →
      (deepseekLoop chat_id created_time deepseek_model false items
        acc).2 = [] := by
  intro items
  induction items with
  | nil => intro acc _; rfl
  | cons p rest ih =>
    intro acc hnc
    obtain ⟨ctype, c⟩ := p
    have hhead : ctype ≠ "content" := by
      simpa using hnc (ctype, c) (List.mem_cons_self _ _)
    have htail : ∀ x ∈ rest, x.1 ≠ "content" := fun x hx =>
      hnc x (List.mem_cons_of_mem _ hx)
    by_cases h1 : ctype = "reasoning"
    · simpa [deepseekLoop, h1] using ih (acc ++ [c]) htail
    · simpa [deepseekLoop, h1, hhead] using ih acc htail

-- Exact computation of the reasoning loop on a stream of reasoning chunks
-- followed by one transition chunk: one frame per chunk, in order, and a
-- single handoff write of the joined accumulator.
theorem deepseekLoop_reasoning_then_content (chat_id : String)
    (created_time : Nat) (deepseek_model : String) (texts : List String)
    (t : String) :
    ∀ acc : List String,
      deepseekLoop chat_id created_time deepseek_model false
        (texts.map (fun s => ("reasoning", s)) ++ [("content", t)]) acc =
      (texts.map (fun s => deepseekEvent chat_id created_time deepseek_model s),
        [String.join (acc ++ texts)]) := by
  induction texts with
  | nil => intro acc; simp [deepseekLoop]
  | cons s texts ih =>
    intro acc
    simp [deepseekLoop, ih (acc ++ [s]), List.append_assoc]

-- Under the reasoning-producer contract (it raises, or yields a transition
-- chunk), the queue trace is two data-frame blocks each closed by a
-- sentinel.
theorem streamQueueTrace_shape (chat_id : String) (created_time : Nat)
    (deepseek_model claude_model : String) (messages : List Message)
    (run : StreamRun) (ap : List Message → StreamRun)
    (hc : run.raises = true ∨ ∃ x ∈ run.items, x.1 = "content") :
    ∃ (A B : List StreamEvent),
      streamQueueTrace chat_id created_time deepseek_model claude_model
        messages run ap = A.map some ++ [none] ++ (B.map some ++ [none]) := by
  obtain ⟨s, hs⟩ := deepseekLoop_writes_one chat_id created_time
    deepseek_model run.raises run.items [] hc
  refine ⟨(deepseekLoop chat_id created_time deepseek_model run.raises
    run.items []).1,
    claudeLoop chat_id created_time claude_model
      (ap (streamClaudeMessages messages s)).items, ?_⟩
  simp [streamQueueTrace, process_deepseek, process_claude, hs]

-- Under the reasoning-producer contract the streaming generator terminates:
-- the terminal marker is its last output, appears exactly once, and exactly
-- two completion sentinels appear on the queue trace.
theorem stream_done (chat_id : String) (created_time : Nat)
    (deepseek_model claude_model : String) (messages : List Message)
    (run : StreamRun) (ap : List Message → StreamRun)
    (hc : run.raises = true ∨ ∃ x ∈ run.items, x.1 = "content") :
    (chat_completions_with_stream chat_id created_time deepseek_model
        claude_model messages run ap).2 = true ∧
    (chat_completions_with_stream chat_id created_time deepseek_model
        claude_model messages run ap).1.count Frame.done = 1 ∧
    (chat_completions_with_stream chat_id created_time deepseek_model
        claude_model messages run ap).1.getLast? = some Frame.done ∧
    (streamQueueTrace chat_id created_time deepseek_model claude_model
        messages run ap).count (none : Option StreamEvent) = 2 := by
  obtain ⟨A, B, htr⟩ := streamQueueTrace_shape chat_id created_time
    deepseek_model claude_model messages run ap hc
  have hout : chat_completions_with_stream chat_id created_time deepseek_model
      claude_model messages run ap =
      (A.map Frame.event ++ (B.map Frame.event ++ [Frame.done]), true) := by
    rw [chat_completions_with_stream, htr, fanIn_two_blocks]
  refine ⟨by rw [hout], ?_, ?_, ?_⟩
  · rw [hout]
    simp [List.count_append, count_done_map_event]
  · rw [hout, ← List.append_assoc, List.getLast?_concat]
  · rw [htr]
    simp [List.count_append, count_none_map_some]

-- The claude-side coroutine reads only the first value ever put on the
-- handoff queue.
theorem process_claude_head (chat_id : String) (created_time : Nat)
    (claude_model : String) (messages : List Message)
    (q q' : List String) (ap : List Message → StreamRun)
    (hq : q.head? = q'.head?) :
    process_claude chat_id created_time claude_model messages q ap =
      process_claude chat_id created_time claude_model messages q' ap := by
  cases q with
  | nil =>
    cases q' with
    | nil => rfl
    | cons r' t' => simp at hq
  | cons r t =>
    cases q' with
    | nil => simp at hq
    | cons r' t' =>
      simp only [List.head?_cons, Option.some.injEq] at hq
      subst hq
      rfl

-- Whether the answer producer raises after its chunks is invisible to the
-- streaming path: the exception is caught at the coroutine boundary.
theorem process_claude_raising (chat_id : String) (created_time : Nat)
    (claude_model : String) (messages : List Message) (q : List String)
    (ap : List Message → StreamRun) :
    process_claude chat_id created_time claude_model messages q
        (raisingProducer ap) =
      process_claude chat_id created_time claude_model messages q ap := by
  cases q with
  | nil => rfl
  | cons r t => rfl

/-! ## Claim theorems -/

/-- C1: in streaming mode, for a reasoning-producer run of zero or more
`reasoning` chunks followed by one `content` transition chunk, the value
written to the handoff queue (`claude_queue`) is exactly the concatenation of
the reasoning chunks' texts in emission order, and the emitted output items
are exactly one event per reasoning chunk (plus the completion sentinel) —
the transition chunk is never emitted. -/
theorem c1_handoff_exact (chat_id : String) (created_time : Nat)
    (deepseek_model : String) (texts : List String) (t : String) :
    process_deepseek chat_id created_time deepseek_model
        { items := texts.map (fun s => ("reasoning", s)) ++ [("content", t)],
          raises := false } =
      ((texts.map (fun s =>
          deepseekEvent chat_id created_time deepseek_model s)).map some ++
        [none],
       [String.join texts]) := by
  simp [process_deepseek, deepseekLoop_reasoning_then_content]

/-- C2: in streaming mode, whenever the reasoning producer meets its contract
(it either fails or yields a transition chunk — the two cases the claim
quantifies over as "success or failure"), the output sequence terminates,
contains the terminal marker exactly once as its last item, and exactly two
completion sentinels are consumed from the shared output queue. -/
theorem c2_terminal_marker (chat_id : String) (created_time : Nat)
    (deepseek_model claude_model : String) (messages : List Message)
    (run : StreamRun) (ap : List Message → StreamRun)
    (hc : run.raises = true ∨ ∃ x ∈ run.items, x.1 = "content") :
    (chat_completions_with_stream chat_id created_time deepseek_model
        claude_model messages run ap).2 = true ∧
    (chat_completions_with_stream chat_id created_time deepseek_model
        claude_model messages run ap).1.count Frame.done = 1 ∧
    (chat_completions_with_stream chat_id created_time deepseek_model
        claude_model messages run ap).1.getLast? = some Frame.done ∧
    (streamQueueTrace chat_id created_time deepseek_model claude_model
        messages run ap).count (none : Option StreamEvent) = 2 :=
  stream_done chat_id created_time deepseek_model claude_model messages run
    ap hc

def wChatId : String := "chatcmpl-1"

def wDeepseekModel : String := "deepseek-reasoner"

def wClaudeModel : String := "claude-3-5-sonnet-20241022"

def wMessages : List Message := [{ role := "user", content := "hi" }]

def wRun : StreamRun := { items := [("content", "go")], raises := false }

def wProducer : List Message → StreamRun :=
  fun _ => { items := [("answer", "Hello")], raises := false }

/-- Witness for C2 at a concrete session. -/
theorem c2_terminal_marker_witness :
    (chat_completions_with_stream wChatId 0 wDeepseekModel wClaudeModel
        wMessages wRun wProducer).2 = true ∧
    (chat_completions_with_stream wChatId 0 wDeepseekModel wClaudeModel
        wMessages wRun wProducer).1.count Frame.done = 1 ∧
    (chat_completions_with_stream wChatId 0 wDeepseekModel wClaudeModel
        wMessages wRun wProducer).1.getLast? = some Frame.done ∧
    (streamQueueTrace wChatId 0 wDeepseekModel wClaudeModel wMessages wRun
        wProducer).count (none : Option StreamEvent) = 2 :=
  c2_terminal_marker wChatId 0 wDeepseekModel wClaudeModel wMessages wRun
    wProducer (by decide)

def scenarioMessages : List Message := [{ role := "user", content := "hi" }]

def scenarioDeepseekRun : StreamRun :=
  { items := [("reasoning", "think1"), ("reasoning", "think2"),
      ("content", "go")],
    raises := false }

def scenarioAnswerProducer : List Message → StreamRun :=
  fun _ => { items := [("answer", "Hello"), ("answer", " there")],
             raises := false }

/-- C7: happy-path scenario.  With input `[{role: user, content: "hi"}]`, a
reasoning producer yielding `think1`, `think2` then the transition chunk, and
an answer producer yielding `Hello` and ` there`, the streaming output is
exactly two reasoning events, then two answer events, then the terminal
marker — four data frames plus the terminal frame, in that order. -/
theorem c7_scenario_a (chat_id : String) (created_time : Nat)
    (deepseek_model claude_model : String) :
    chat_completions_with_stream chat_id created_time deepseek_model
        claude_model scenarioMessages scenarioDeepseekRun
        scenarioAnswerProducer =
      ([Frame.event (deepseekEvent chat_id created_time deepseek_model
          ("think1")),
        Frame.event (deepseekEvent chat_id created_time deepseek_model
          ("think2")),
        Frame.event (claudeEvent chat_id created_time claude_model ("Hello")),
        Frame.event (claudeEvent chat_id created_time claude_model (" there")),
        Frame.done], true) := by
  rfl

-- If the reasoning stream raises without ever yielding a transition chunk,
-- the except branch writes the empty string to the handoff queue.
theorem deepseekLoop_writes_raises (chat_id : String) (created_time : Nat)
    (deepseek_model : String) :
    ∀ (items : List (String × String)) (acc : List String),
      (∀ x ∈ items, x.1 ≠ "content") →
      (deepseekLoop chat_id created_time deepseek_model true items
        acc).2 = [""] := by
  intro items
  induction items with
  | nil => intro acc _; rfl
  | cons p rest ih =>
    intro acc hnc
    obtain ⟨ctype, c⟩ := p
    have hhead : ctype ≠ "content" := by
      simpa using hnc (ctype, c) (List.mem_cons_self _ _)
    have htail : ∀ x ∈ rest, x.1 ≠ "content" := fun x hx =>
      hnc x (List.mem_cons_of_mem _ hx)
    by_cases h1 : ctype = "reasoning"
    · simpa [deepseekLoop, h1] using ih (acc ++ [c]) htail
    · simpa [deepseekLoop, h1, hhead] using ih acc htail

-- Aggregated-mode reasoning loop: an exception with no transition chunk
-- replaces the accumulator with the single fallback entry.
theorem aggLoop_raises (items : List (String × String)) :
    ∀ acc : List String, (∀ x ∈ items, x.1 ≠ "content") →
      aggLoop true items acc = [fallbackText] := by
  induction items with
  | nil => intro acc _; rfl
  | cons p rest ih =>
    intro acc hnc
    obtain ⟨ctype, c⟩ := p
    have hhead : ctype ≠ "content" := by
      simpa using hnc (ctype, c) (List.mem_cons_self _ _)
    have htail : ∀ x ∈ rest, x.1 ≠ "content" := fun x hx =>
      hnc x (List.mem_cons_of_mem _ hx)
    by_cases h1 : ctype = "reasoning"
    · simpa [aggLoop, h1] using ih (acc ++ [c]) htail
    · simpa [aggLoop, h1, hhead] using ih acc htail

/-- C9: if the reasoning producer's stream ends normally without ever
yielding a `content` chunk (and without raising), nothing is written to the
handoff queue, the answer-stage coroutine suspends forever and contributes
nothing, only one completion sentinel appears on the output queue, and the
generator loop never terminates — the terminal marker is never yielded. -/
theorem c9_no_transition_no_done (chat_id : String) (created_time : Nat)
    (deepseek_model claude_model : String) (messages : List Message)
    (items : List (String × String)) (ap : List Message → StreamRun)
    (hnc : ∀ x ∈ items, x.1 ≠ "content") :
    (process_deepseek chat_id created_time deepseek_model
        { items := items, raises := false }).2 = [] ∧
    process_claude chat_id created_time claude_model messages [] ap = [] ∧
    (streamQueueTrace chat_id created_time deepseek_model claude_model
        messages { items := items, raises := false } ap).count
        (none : Option StreamEvent) = 1 ∧
    (chat_completions_with_stream chat_id created_time deepseek_model
        claude_model messages { items := items, raises := false } ap).2 =
      false ∧
    (chat_completions_with_stream chat_id created_time deepseek_model
        claude_model messages { items := items, raises := false } ap).1.count
        Frame.done = 0 := by
  have hw : (deepseekLoop chat_id created_time deepseek_model false items
      []).2 = [] :=
    deepseekLoop_writes_nil chat_id created_time deepseek_model items [] hnc
  have htr : streamQueueTrace chat_id created_time deepseek_model claude_model
      messages { items := items, raises := false } ap =
      (deepseekLoop chat_id created_time deepseek_model false items
        []).1.map some ++ [none] := by
    simp [streamQueueTrace, process_deepseek, process_claude, hw]
  have hout : chat_completions_with_stream chat_id created_time deepseek_model
      claude_model messages { items := items, raises := false } ap =
      ((deepseekLoop chat_id created_time deepseek_model false items
        []).1.map Frame.event, false) := by
    rw [chat_completions_with_stream, htr, fanIn_one_block]
  refine ⟨by simp [process_deepseek, hw], rfl, ?_, by rw [hout], ?_⟩
  · rw [htr]
    simp [List.count_append, count_none_map_some]
  · rw [hout]
    exact count_done_map_event _

def msgsEmpty : List Message := []

def runZeroChunks : StreamRun := { items := [("content", "go")], raises := false }

/-- C3 counterexample: in aggregated mode, a reasoning producer that succeeds
with zero reasoning chunks (it yields only the transition chunk) produces a
synthetic assistant message embedding the empty string — not the fixed
fallback text, contradicting the claim's "in both streaming and aggregated
modes". -/
theorem c3_counterexample :
    withoutStreamClaudeMessages msgsEmpty runZeroChunks =
      [synthMessage ("")] ∧
    synthMessage ("") ≠ synthMessage fallbackText := by
  constructor
  · rfl
  · decide

/-- C3 (amended): if the reasoning producer yields zero reasoning chunks or
fails before the transition signal, then in streaming mode the handoff value
is the empty string and the answer stage substitutes the fixed fallback text
into the synthetic assistant message; in aggregated mode the fallback text is
embedded only when the producer fails, while a producer that succeeds with
zero reasoning chunks yields a synthetic message embedding the empty
string. -/
theorem c3_amended_fallback (chat_id : String) (created_time : Nat)
    (deepseek_model : String) (messages : List Message)
    (items rest : List (String × String)) (t : String)
    (hnc : ∀ x ∈ items, x.1 ≠ "content") :
    (process_deepseek chat_id created_time deepseek_model
        { items := items, raises := true }).2 = [""] ∧
    (process_deepseek chat_id created_time deepseek_model
        { items := ("content", t) :: rest, raises := false }).2 = [""] ∧
    streamClaudeMessages messages ("") =
      buildClaudeMessages messages fallbackText ∧
    withoutStreamClaudeMessages messages { items := items, raises := true } =
      buildClaudeMessages messages fallbackText ∧
    withoutStreamClaudeMessages messages
        { items := ("content", t) :: rest, raises := false } =
      buildClaudeMessages messages ("") := by
  refine ⟨?_, ?_, rfl, ?_, ?_⟩
  · simpa [process_deepseek] using
      deepseekLoop_writes_raises chat_id created_time deepseek_model items []
        hnc
  · simp [process_deepseek, deepseekLoop, String.join]
  · have h := aggLoop_raises items [] hnc
    simp [withoutStreamClaudeMessages, aggReasoning, h, String.join]
  · simp [withoutStreamClaudeMessages, aggReasoning, aggLoop, String.join]

/-- Witness for C3 (amended) at a concrete input. -/
theorem c3_amended_fallback_witness :
    (process_deepseek wChatId 0 wDeepseekModel
        { items := [("reasoning", "partial")], raises := true }).2 = [""] ∧
    (process_deepseek wChatId 0 wDeepseekModel
        { items := ("content", "go") :: [], raises := false }).2 = [""] ∧
    streamClaudeMessages wMessages ("") =
      buildClaudeMessages wMessages fallbackText ∧
    withoutStreamClaudeMessages wMessages
        { items := [("reasoning", "partial")], raises := true } =
      buildClaudeMessages wMessages fallbackText ∧
    withoutStreamClaudeMessages wMessages
        { items := ("content", "go") :: [], raises := false } =
      buildClaudeMessages wMessages ("") :=
  c3_amended_fallback wChatId 0 wDeepseekModel wMessages
    [("reasoning", "partial")] [] "go" (by decide)

/-- C4: if the answer producer fails after its chunks, the streaming session
is unaffected (the failure is caught at the coroutine boundary: the output
equals that of a non-failing producer with the same chunks, and — under the
reasoning-producer contract — the session still terminates with the terminal
marker last), while in aggregated mode the same failure is re-raised to the
caller and no partial response object is returned. -/
theorem c4_answer_failure (chat_id : String) (created_time : Nat)
    (deepseek_model claude_model : String) (messages : List Message)
    (run run2 : StreamRun) (ap : List Message → StreamRun)
    (hc : run.raises = true ∨ ∃ x ∈ run.items, x.1 = "content") :
    chat_completions_with_stream chat_id created_time deepseek_model
        claude_model messages run (raisingProducer ap) =
      chat_completions_with_stream chat_id created_time deepseek_model
        claude_model messages run ap ∧
    (chat_completions_with_stream chat_id created_time deepseek_model
        claude_model messages run (raisingProducer ap)).2 = true ∧
    (chat_completions_with_stream chat_id created_time deepseek_model
        claude_model messages run (raisingProducer ap)).1.getLast? =
      some Frame.done ∧
    chat_completions_without_stream chat_id created_time claude_model
        messages run2 (raisingProducer ap) = none := by
  have hd := stream_done chat_id created_time deepseek_model claude_model
    messages run (raisingProducer ap) hc
  refine ⟨?_, hd.1, hd.2.2.1, rfl⟩
  unfold chat_completions_with_stream streamQueueTrace
  rw [process_claude_raising]

/-- Witness for C4 at a concrete session. -/
theorem c4_answer_failure_witness :
    chat_completions_with_stream wChatId 0 wDeepseekModel wClaudeModel
        wMessages wRun (raisingProducer wProducer) =
      chat_completions_with_stream wChatId 0 wDeepseekModel wClaudeModel
        wMessages wRun wProducer ∧
    (chat_completions_with_stream wChatId 0 wDeepseekModel wClaudeModel
        wMessages wRun (raisingProducer wProducer)).2 = true ∧
    (chat_completions_with_stream wChatId 0 wDeepseekModel wClaudeModel
        wMessages wRun (raisingProducer wProducer)).1.getLast? =
      some Frame.done ∧
    chat_completions_without_stream wChatId 0 wClaudeModel wMessages wRun
        (raisingProducer wProducer) = none :=
  c4_answer_failure wChatId 0 wDeepseekModel wClaudeModel wMessages wRun wRun
    wProducer (by decide)

-- Every message is counted either by the keep-predicate of the system-role
-- filter or by the system-role counter.
theorem countP_system_sum (l : List Message) :
    l.countP (fun m => m.role != "system") +
      l.countP (fun m => m.role == "system") = l.length := by
  induction l with
  | nil => rfl
  | cons x l ih =>
    simp only [List.countP_cons, List.length_cons, bne] at ih ⊢
    cases hx : x.role == "system" with
    | false => simp [hx]; omega
    | true => simp [hx]; omega

-- The shared message-list construction: its length and the absence of
-- system-role entries, for any reasoning string.
theorem buildClaudeMessages_spec (messages : List Message)
    (reasoning : String) :
    (buildClaudeMessages messages reasoning).length =
      (messages.length -
        messages.countP (fun m => m.role == "system")) + 1 ∧
    (buildClaudeMessages messages reasoning).all
      (fun m => m.role != "system") = true := by
  constructor
  · rw [buildClaudeMessages, ← List.countP_eq_length_filter,
      List.countP_append]
    have hsynth :
        List.countP (fun message => message.role != "system")
          [synthMessage reasoning] = 1 := by
      simp [List.countP_cons, synthMessage]
    have hsum := countP_system_sum messages
    have hle :
        messages.countP (fun m => m.role == "system") ≤ messages.length :=
      List.countP_le_length (fun m : Message => m.role == "system")
    omega
  · rw [buildClaudeMessages, List.all_eq_true]
    intro m hm
    exact (List.mem_filter.mp hm).2

/-- C5: for every input message list with `N` entries of which `k` have role
`system`, the message list passed to the answer producer contains exactly
`(N - k) + 1` entries and no entry with role `system` — via the shared
construction `buildClaudeMessages` and both mode-specific wrappers
(`streamClaudeMessages` for streaming, `withoutStreamClaudeMessages` for
aggregated). -/
theorem c5_system_stripping (messages : List Message) (reasoning : String)
    (run : StreamRun) :
    (buildClaudeMessages messages reasoning).length =
      (messages.length -
        messages.countP (fun m => m.role == "system")) + 1 ∧
    (buildClaudeMessages messages reasoning).all
      (fun m => m.role != "system") = true ∧
    (streamClaudeMessages messages reasoning).length =
      (messages.length -
        messages.countP (fun m => m.role == "system")) + 1 ∧
    (streamClaudeMessages messages reasoning).all
      (fun m => m.role != "system") = true ∧
    (withoutStreamClaudeMessages messages run).length =
      (messages.length -
        messages.countP (fun m => m.role == "system")) + 1 ∧
    (withoutStreamClaudeMessages messages run).all
      (fun m => m.role != "system") = true :=
  ⟨(buildClaudeMessages_spec messages reasoning).1,
   (buildClaudeMessages_spec messages reasoning).2,
   (buildClaudeMessages_spec messages _).1,
   (buildClaudeMessages_spec messages _).2,
   (buildClaudeMessages_spec messages _).1,
   (buildClaudeMessages_spec messages _).2⟩

/-- C6: per session the handoff queue is written at most once in every
execution of the reasoning coroutine, exactly once whenever that coroutine
completes (via the transition signal or via failure, per the producer
contract), and the answer coroutine reads only the first value ever placed on
it (its behaviour depends on nothing else of the queue). -/
theorem c6_handoff_once (chat_id : String) (created_time : Nat)
    (deepseek_model claude_model : String) (messages : List Message)
    (run run2 : StreamRun) (q q' : List String)
    (ap : List Message → StreamRun)
    (hc : run.raises = true ∨ ∃ x ∈ run.items, x.1 = "content")
    (hq : q.head? = q'.head?) :
    (process_deepseek chat_id created_time deepseek_model run2).2.length ≤
      1 ∧
    (process_deepseek chat_id created_time deepseek_model run).2.length =
      1 ∧
    process_claude chat_id created_time claude_model messages q ap =
      process_claude chat_id created_time claude_model messages q' ap := by
  refine ⟨?_, ?_, process_claude_head chat_id created_time claude_model
    messages q q' ap hq⟩
  · simpa [process_deepseek] using
      deepseekLoop_writes_le chat_id created_time deepseek_model run2.raises
        run2.items []
  · obtain ⟨s, hs⟩ := deepseekLoop_writes_one chat_id created_time
      deepseek_model run.raises run.items [] hc
    simp [process_deepseek, hs]

/-- Witness for C6 at a concrete session. -/
theorem c6_handoff_once_witness :
    (process_deepseek wChatId 0 wDeepseekModel wRun).2.length ≤ 1 ∧
    (process_deepseek wChatId 0 wDeepseekModel wRun).2.length = 1 ∧
    process_claude wChatId 0 wClaudeModel wMessages ["r1"] wProducer =
      process_claude wChatId 0 wClaudeModel wMessages ["r1", "r2"]
        wProducer :=
  c6_handoff_once wChatId 0 wDeepseekModel wClaudeModel wMessages wRun wRun
    ["r1"] ["r1", "r2"] wProducer (by decide) (by decide)

/-- C8: every successfully returned aggregated-mode response object has
`object = "chat.completion"`, a single choice with index 0 and
`finish_reason = "stop"` whose message content is the concatenation of all
`answer`-kind chunk texts and whose `reasoning_content` is the accumulated
reasoning text, and all three usage counters equal `-1`. -/
theorem c8_aggregated_shape (chat_id : String) (created_time : Nat)
    (claude_model : String) (messages : List Message) (run : StreamRun)
    (ap : List Message → StreamRun) (resp : Response)
    (h : chat_completions_without_stream chat_id created_time claude_model
        messages run ap = some resp) :
    resp.object = "chat.completion" ∧
    resp.choices =
      [{ index := 0
         message := { role := "assistant"
                      content := concatAnswer
                        (ap (withoutStreamClaudeMessages messages run)).items
                      reasoning_content := aggReasoning run }
         finish_reason := "stop" }] ∧
    resp.usage =
      { prompt_tokens := -1, completion_tokens := -1, total_tokens := -1 } := by
  unfold chat_completions_without_stream at h
  by_cases hr : (ap (withoutStreamClaudeMessages messages run)).raises = true
  · rw [if_pos hr] at h
    exact absurd h (by simp)
  · rw [if_neg hr] at h
    have h2 := Option.some.inj h
    subst h2
    exact ⟨rfl, rfl, rfl⟩

def wResponse : Response :=
  { id := wChatId
    object := "chat.completion"
    created := 0
    model := wClaudeModel
    choices := [{ index := 0
                  message := { role := "assistant"
                               content := "Hello"
                               reasoning_content := "" }
                  finish_reason := "stop" }]
    usage := { prompt_tokens := -1
               completion_tokens := -1
               total_tokens := -1 } }

/-- Witness for C8 at a concrete session. -/
theorem c8_aggregated_shape_witness :
    wResponse.object = "chat.completion" ∧
    wResponse.choices =
      [{ index := 0
         message := { role := "assistant"
                      content := concatAnswer
                        (wProducer (withoutStreamClaudeMessages wMessages
                          wRun)).items
                      reasoning_content := aggReasoning wRun }
         finish_reason := "stop" }] ∧
    wResponse.usage =
      { prompt_tokens := -1, completion_tokens := -1, total_tokens := -1 } :=
  c8_aggregated_shape wChatId 0 wClaudeModel wMessages wRun wProducer
    wResponse (by rfl)

-- Reading below the old length is unaffected by an allocation.
theorem heapGet_append_left (h : Heap) (v : List Message) (a : Nat)
    (ha : a < h.length) : heapGet (h ++ [v]) a = heapGet h a := by
  simp [heapGet, List.getElem?_append_left ha]

-- Reading the freshly allocated address yields the new object.
theorem heapGet_concat (h : Heap) (v : List Message) :
    heapGet (h ++ [v]) h.length = v := by
  simp [heapGet, List.getElem?_concat_length]

-- In-place mutation at one address leaves every other address unchanged.
theorem heapGet_set_ne (h : Heap) (i j : Nat) (v : List Message)
    (hij : i ≠ j) : heapGet (h.set i v) j = heapGet h j := by
  simp [heapGet, List.getElem?_set_ne hij]

-- In-place mutation at a valid address is visible at that address.
theorem heapGet_set_self (h : Heap) (i : Nat) (v : List Message)
    (hi : i < h.length) : heapGet (h.set i v) i = v := by
  simp [heapGet, List.getElem?_set_self hi]

/-- C10: neither mode mutates the caller-supplied `messages` list.  Running
the exact sequence of Python list operations both modes perform
(`copy`, `append` on the copy, filtering comprehension) over the heap model
leaves the contents at the caller's address unchanged, and the list bound to
`claude_messages` afterwards is exactly `buildClaudeMessages` of the original
contents. -/
theorem c10_no_caller_mutation (h : Heap) (a : Nat) (reasoning : String)
    (ha : a < h.length) :
    heapGet (buildClaudeMessagesOps h a reasoning).1 a = heapGet h a ∧
    heapGet (buildClaudeMessagesOps h a reasoning).1
        (buildClaudeMessagesOps h a reasoning).2 =
      buildClaudeMessages (heapGet h a) reasoning := by
  have hne : h.length ≠ a := Nat.ne_of_gt ha
  have hlt : h.length < (h ++ [heapGet h a]).length := by
    simp
  have hcopy : heapGet (h ++ [heapGet h a]) h.length = heapGet h a :=
    heapGet_concat h (heapGet h a)
  have hset : heapGet ((h ++ [heapGet h a]).set h.length
      (heapGet (h ++ [heapGet h a]) h.length ++ [synthMessage reasoning]))
      h.length = heapGet h a ++ [synthMessage reasoning] := by
    rw [heapGet_set_self _ _ _ hlt, hcopy]
  have halt : a < ((h ++ [heapGet h a]).set h.length
      (heapGet (h ++ [heapGet h a]) h.length ++
        [synthMessage reasoning])).length := by
    simp
    omega
  constructor
  · simp only [buildClaudeMessagesOps, heapAlloc]
    rw [heapGet_append_left _ _ a halt, heapGet_set_ne _ _ _ _ hne,
      heapGet_append_left _ _ a ha]
  · simp only [buildClaudeMessagesOps, heapAlloc]
    rw [heapGet_concat, hset]
    rfl

def wHeap : Heap := [[{ role := "user", content := "hi" }]]

/-- Witness for C10 at a concrete one-object heap. -/
theorem c10_no_caller_mutation_witness :
    heapGet (buildClaudeMessagesOps wHeap 0 ("r")).1 0 = heapGet wHeap 0 ∧
    heapGet (buildClaudeMessagesOps wHeap 0 ("r")).1
        (buildClaudeMessagesOps wHeap 0 ("r")).2 =
      buildClaudeMessages (heapGet wHeap 0) ("r") :=
  c10_no_caller_mutation wHeap 0 "r" (by decide)

/-- Witness for C9 at a concrete session whose reasoning stream ends without
a transition chunk. -/
theorem c9_no_transition_no_done_witness :
    (process_deepseek wChatId 0 wDeepseekModel
        { items := [("reasoning", "x")], raises := false }).2 = [] ∧
    process_claude wChatId 0 wClaudeModel wMessages [] wProducer = [] ∧
    (streamQueueTrace wChatId 0 wDeepseekModel wClaudeModel wMessages
        { items := [("reasoning", "x")], raises := false } wProducer).count
        (none : Option StreamEvent) = 1 ∧
    (chat_completions_with_stream wChatId 0 wDeepseekModel wClaudeModel
        wMessages { items := [("reasoning", "x")], raises := false }
        wProducer).2 = false ∧
    (chat_completions_with_stream wChatId 0 wDeepseekModel wClaudeModel
        wMessages { items := [("reasoning", "x")], raises := false }
        wProducer).1.count Frame.done = 0 :=
  c9_no_transition_no_done wChatId 0 wDeepseekModel wClaudeModel wMessages
    [("reasoning", "x")] wProducer (by decide)
